import Mathlib

/-!
Shallow embedding of the cookie-server authentication gateway
(`src/server.js` and the auth middleware `src/unnamed/part_000`).

HTTP responses are modelled as a status code paired with the message string
sent in the body.  The Credential Store (MongoDB `User` collection) is a
list of user records; the Session Store (connect-mongo) is an association
list from opaque session ids to session payloads.  Asynchronous store
failures (`session.destroy` error, `user.remove()` throwing) are modelled
by explicit parameters, since the embedding is pure.
-/

namespace CookieServer

/-- An HTTP response: status code and the `message` field of the JSON body. -/
structure Resp where
  status : Nat
  message : String
deriving Repr, DecidableEq

/-- A record of the `User` collection: Mongo `_id`, `username`, stored
(hashed) `password`, and `role`. -/
structure UserRec where
  _id : Nat
  username : String
  password : String
  role : String
deriving Repr, DecidableEq

/-- The user reference a session payload carries after sign-in:
`req.session.user = { id: user._id, username: user.username }`. -/
structure SessionUser where
  id : Nat
  username : String
deriving Repr, DecidableEq

/-- A session payload held by the session store.  The `user` field is
`none` until sign-in sets it. -/
structure SessionData where
  user : Option SessionUser
deriving Repr, DecidableEq

/-- The Credential Store: the persisted `User` records. -/
abbrev UserStore := List UserRec

/-- The Session Store: opaque session ids mapped to session payloads. -/
abbrev SessionStore := List (String × SessionData)

/-- Modelled from the spec: the Password Hasher (bcrypt, an external
collaborator) provides a one-way salted hash and a verify operation. -/
structure Hasher where
  hash : String → String
  verify : String → String → Bool

/-- `User.findOne({ username })`: look up a user record by identity. -/
def findOne (us : UserStore) (username : String) : Option UserRec :=
  us.find? (fun r => r.username == username)

/-- `User.findById(id)`: look up a user record by internal id. -/
def findById (us : UserStore) (id : Nat) : Option UserRec :=
  us.find? (fun r => r._id == id)

/-- Resolve the request's session cookie through the Session Store, the
lookup the `express-session` middleware performs before any handler runs. -/
def getSession (ss : SessionStore) (sid : Option String) : Option SessionData :=
  sid.bind (fun k => (ss.find? (fun kv => kv.1 == k)).map (fun kv => kv.2))

/-- Store a session payload under a session id (insert or overwrite). -/
def setSession (ss : SessionStore) (sid : String) (d : SessionData) : SessionStore :=
  (sid, d) :: ss.filter (fun kv => !(kv.1 == sid))

/-- `req.session.destroy`: remove the session record from the store. -/
def destroySession (ss : SessionStore) (sid : String) : SessionStore :=
  ss.filter (fun kv => !(kv.1 == sid))

/-- Outcome of the auth-guard middleware: pass the request on (`next()`)
or answer it with a status and message. -/
inductive GuardResult where
  | allow : GuardResult
  | deny (status : Nat) (message : String) : GuardResult
deriving Repr, DecidableEq

/-- The auth middleware (`src/unnamed/part_000`): allow when
`req.session && req.session.user` is truthy, otherwise respond
`401 {message: "You must be logged in to access this"}`. -/
def isAuthenticated (sess : Option SessionData) : GuardResult :=
  match sess with
  | some s =>
    match s.user with
    | some _ => GuardResult.allow
    | none => GuardResult.deny 401 "You must be logged in to access this"
  | none => GuardResult.deny 401 "You must be logged in to access this"

/-- Compose the auth guard before a protected handler: on allow the handler
runs on the request's session; on deny its response is sent instead. -/
def gated (handler : Option SessionData → Resp) (sess : Option SessionData) : Resp :=
  match isAuthenticated sess with
  | GuardResult.allow => handler sess
  | GuardResult.deny s m => { status := s, message := m }

/-- Modelled from the spec: constructing a `User` (the model file
`./models/User` is required by `server.js` but absent from the sources)
hashes the secret via the Password Hasher and defaults `role` to
"standard"; the store assigns a fresh internal id at creation. -/
def mkUser (hasher : Hasher) (newId : Nat) (username password : String) : UserRec :=
  { _id := newId, username := username, password := hasher.hash password,
    role := "standard" }

/-- `POST /sign-up` handler: reject a taken username with 400, otherwise
persist a new user and answer 201. -/
def signUp (hasher : Hasher) (us : UserStore) (newId : Nat)
    (username password : String) : Resp × UserStore :=
  match findOne us username with
  | some _ => ({ status := 400, message := "Username already taken." }, us)
  | none =>
    let user := mkUser hasher newId username password
    ({ status := 201, message := "User registered successfully." }, us ++ [user])

/-- `POST /sign-in` handler: look up the user, verify the password against
the stored hash, and on success store the user reference in the session. -/
def signIn (hasher : Hasher) (us : UserStore) (ss : SessionStore) (sid : String)
    (username password : String) : Resp × SessionStore :=
  match findOne us username with
  | none => ({ status := 401, message := "Authentication failed" }, ss)
  | some user =>
    if hasher.verify password user.password then
      ({ status := 200, message := "Logged in successfully" },
       setSession ss sid { user := some { id := user._id, username := user.username } })
    else
      ({ status := 401, message := "Authentication failed" }, ss)

/-- `POST /logout` handler: with no session answer 400; otherwise destroy
the session record, answering 500 when the destroy errors and 200 when it
succeeds.  `destroyFails` models the error argument of the destroy
callback. -/
def logout (destroyFails : Bool) (ss : SessionStore) (sid : Option String) :
    Resp × SessionStore :=
  match getSession ss sid with
  | some _ =>
    if destroyFails then
      ({ status := 500, message := "Could not log out, please try again" }, ss)
    else
      match sid with
      | some k => ({ status := 200, message := "Logout successful" }, destroySession ss k)
      | none => ({ status := 200, message := "Logout successful" }, ss)
  | none => ({ status := 400, message := "You are not logged in" }, ss)

/-- Core of the `DELETE /user/:id` handler, after the auth guard: re-fetch
the acting user by the session's user id, require role "admin", fetch the
target by `req.params.id`, and remove it.  `removeErr` models
`user.remove()` throwing: the caught error is sent with status 500. -/
def deleteUser (removeErr : Option String) (us : UserStore)
    (actorId targetId : Nat) : Resp × UserStore :=
  match findById us actorId with
  | none => ({ status := 401, message := "Unauthorized" }, us)
  | some admin =>
    if admin.role == "admin" then
      match findById us targetId with
      | none => ({ status := 404, message := "User not found" }, us)
      | some _ =>
        match removeErr with
        | some e => ({ status := 500, message := e }, us)
        | none =>
          ({ status := 200, message := "User deleted successfully" },
           us.eraseP (fun r => r._id == targetId))
    else
      ({ status := 401, message := "Unauthorized" }, us)

/-- The full `DELETE /user/:id` route: the auth guard runs first; on allow
the handler reads `req.session.user.id` as the actor id. -/
def deleteUserRoute (removeErr : Option String) (us : UserStore)
    (ss : SessionStore) (sid : Option String) (targetId : Nat) :
    Resp × UserStore :=
  match isAuthenticated (getSession ss sid) with
  | GuardResult.deny s m => ({ status := s, message := m }, us)
  | GuardResult.allow =>
    match (getSession ss sid).bind (fun d => d.user) with
    | some su => deleteUser removeErr us su.id targetId
    | none => ({ status := 401, message := "You must be logged in to access this" }, us)

/-- The `GET /is-authenticated` probe: the guard runs first; on allow the
handler answers `200 {message: "Authenticated"}`. -/
def probe (ss : SessionStore) (sid : Option String) : Resp :=
  match isAuthenticated (getSession ss sid) with
  | GuardResult.allow => { status := 200, message := "Authenticated" }
  | GuardResult.deny s m => { status := s, message := m }

/-- The user reference carried by a resolved session payload, the only
input the auth guard inspects. -/
def userRef (sess : Option SessionData) : Option SessionUser :=
  sess.bind (fun d => d.user)

/-! ### Concrete instances used by the witnesses -/

/-- A concrete stand-in for the bcrypt hash, used only in witnesses. -/
def modelHash (p : String) : String := String.append "bcrypt$" p

/-- A concrete Password Hasher whose verify recomputes the hash. -/
def modelHasher : Hasher :=
  { hash := modelHash, verify := fun p h => modelHash p == h }

/-- A registered standard user for the witnesses. -/
def aliceRec : UserRec :=
  { _id := 1, username := "alice", password := modelHash "pw1", role := "standard" }

/-- A registered admin user for the witnesses. -/
def rootRec : UserRec :=
  { _id := 2, username := "root", password := modelHash "pw2", role := "admin" }

/-! ### Helper lemmas about the session store -/

theorem getSession_setSession (ss : SessionStore) (sid : String) (d : SessionData) :
    getSession (setSession ss sid d) (some sid) = some d := by
  simp [getSession, setSession]

theorem getSession_destroySession (ss : SessionStore) (k : String) :
    getSession (destroySession ss k) (some k) = none := by
  simp only [getSession, destroySession, Option.bind]
  rw [List.find?_eq_none.mpr]
  · rfl
  · intro x hx
    simp only [List.mem_filter, Bool.not_eq_eq_eq_not, Bool.not_true] at hx
    simp [hx.2]

theorem findById_eraseP (us : UserStore) (t : Nat)
    (hn : (us.map (fun r => r._id)).Nodup) :
    findById (us.eraseP (fun r => r._id == t)) t = none := by
  induction us with
  | nil => rfl
  | cons r us ih =>
    simp only [List.map_cons, List.nodup_cons] at hn
    by_cases h : r._id = t
    · rw [List.eraseP_cons_of_pos (by simp [h])]
      rw [findById, List.find?_eq_none]
      intro x hx
      simp only [beq_iff_eq]
      intro hxt
      exact hn.1 (List.mem_map.mpr ⟨x, hx, hxt.trans h.symm⟩)
    · rw [List.eraseP_cons_of_neg (by simp [h])]
      rw [findById, List.find?_cons_of_neg _ (by simp [h])]
      exact ih hn.2

/-! ### Claims -/

/-- C1: the Auth Guard allows a request through to the protected handler
exactly when the resolved session payload is present and carries a
non-empty user reference; in every other case it answers
`401 {message: "You must be logged in to access this"}` and the protected
handler does not run. -/
theorem auth_guard_spec (handler : Option SessionData → Resp)
    (sess : Option SessionData) :
    isAuthenticated sess =
      (if (userRef sess).isSome then GuardResult.allow
       else GuardResult.deny 401 "You must be logged in to access this")
    ∧ gated handler sess =
      (if (userRef sess).isSome then handler sess
       else { status := 401, message := "You must be logged in to access this" }) := by
  match sess with
  | none => exact ⟨rfl, rfl⟩
  | some d =>
    match h : d.user with
    | none => simp [isAuthenticated, gated, userRef, h]
    | some su => simp [isAuthenticated, gated, userRef, h]

/-- C10: the Auth Guard's decision is a function of the session's user
field alone: two resolved sessions whose user references agree on being
present-and-non-empty receive the same allow/deny outcome, whatever else
the sessions contain. -/
theorem auth_guard_deterministic (s1 s2 : Option SessionData)
    (h : (userRef s1).isSome = (userRef s2).isSome) :
    isAuthenticated s1 = isAuthenticated s2 := by
  match s1, s2 with
  | none, none => rfl
  | none, some d2 =>
    match h2 : d2.user with
    | none => simp [isAuthenticated, h2]
    | some su => simp [userRef, h2] at h
  | some d1, none =>
    match h1 : d1.user with
    | none => simp [isAuthenticated, h1]
    | some su => simp [userRef, h1] at h
  | some d1, some d2 =>
    match h1 : d1.user, h2 : d2.user with
    | none, none => simp [isAuthenticated, h1, h2]
    | some su1, some su2 => simp [isAuthenticated, h1, h2]
    | none, some su2 => simp [userRef, h1, h2] at h
    | some su1, none => simp [userRef, h1, h2] at h

theorem auth_guard_deterministic_witness :
    ((userRef (some { user := some { id := 1, username := "alice" } })).isSome
      = (userRef (some { user := some { id := 2, username := "root" } })).isSome)
    ∧ isAuthenticated (some { user := some { id := 1, username := "alice" } })
      = isAuthenticated (some { user := some { id := 2, username := "root" } }) :=
  ⟨by decide,
   auth_guard_deterministic
     (some { user := some { id := 1, username := "alice" } })
     (some { user := some { id := 2, username := "root" } })
     (by decide)⟩

/-- C2: sign-up answers 400 "Username already taken." and creates no user
when the identity is already in the Credential Store; otherwise it hashes
the secret via the Password Hasher, persists a new user record whose role
defaults to "standard", and answers 201 with a success message. -/
theorem sign_up_spec (hasher : Hasher) (us : UserStore) (newId : Nat)
    (username password : String) :
    signUp hasher us newId username password =
      (if (findOne us username).isSome then
        ({ status := 400, message := "Username already taken." }, us)
       else
        ({ status := 201, message := "User registered successfully." },
         us ++ [{ _id := newId, username := username,
                  password := hasher.hash password, role := "standard" }])) := by
  match h : findOne us username with
  | some u => simp [signUp, h]
  | none => simp [signUp, h, mkUser]

/-- C3: sign-in with a never-registered identity and sign-in with a
registered identity but a failing password verification yield the
identical response, `401 {message: "Authentication failed"}`, so the two
failure causes are indistinguishable from the response. -/
theorem sign_in_enumeration_resistant (hasher : Hasher) (us : UserStore)
    (ss1 ss2 : SessionStore) (sid1 sid2 : String)
    (u1 p1 u2 p2 : String) (user : UserRec)
    (h1 : findOne us u1 = none)
    (h2 : findOne us u2 = some user)
    (h3 : hasher.verify p2 user.password = false) :
    (signIn hasher us ss1 sid1 u1 p1).1 = (signIn hasher us ss2 sid2 u2 p2).1
    ∧ (signIn hasher us ss1 sid1 u1 p1).1 =
        { status := 401, message := "Authentication failed" } := by
  constructor <;> simp [signIn, h1, h2, h3]

theorem sign_in_enumeration_resistant_witness :
    findOne [aliceRec] "bob" = none
    ∧ findOne [aliceRec] "alice" = some aliceRec
    ∧ modelHasher.verify "wrong" aliceRec.password = false
    ∧ (signIn modelHasher [aliceRec] [] "s1" "bob" "x").1
        = (signIn modelHasher [aliceRec] [] "s2" "alice" "wrong").1 :=
  ⟨by decide, by decide, by decide,
   (sign_in_enumeration_resistant modelHasher [aliceRec] [] [] "s1" "s2"
     "bob" "x" "alice" "wrong" aliceRec (by decide) (by decide) (by decide)).1⟩

/-- C4: logout answers 400 "You are not logged in" when no active session
resolves for the request; otherwise it destroys the session record,
answering 500 "Could not log out, please try again" when the destroy
fails and 200 "Logout successful" when it succeeds, after which the
session store no longer recognizes the session id. -/
theorem logout_spec (destroyFails : Bool) (ss : SessionStore) (sid : Option String) :
    (getSession ss sid = none →
      logout destroyFails ss sid =
        ({ status := 400, message := "You are not logged in" }, ss))
    ∧ (∀ k d, sid = some k → getSession ss sid = some d →
        (destroyFails = true →
          logout destroyFails ss sid =
            ({ status := 500, message := "Could not log out, please try again" }, ss))
        ∧ (destroyFails = false →
          logout destroyFails ss sid =
            ({ status := 200, message := "Logout successful" }, destroySession ss k)
          ∧ getSession (logout destroyFails ss sid).2 (some k) = none)) := by
  refine ⟨fun hnone => ?_, fun k d hk hsome => ⟨fun hfail => ?_, fun hok => ?_⟩⟩
  · simp [logout, hnone]
  · simp [logout, hsome, hfail]
  · subst hk
    subst hok
    refine ⟨by simp [logout, hsome], ?_⟩
    simp only [logout, hsome]
    exact getSession_destroySession ss k

theorem logout_spec_witness :
    getSession [("sid1", SessionData.mk (some { id := 1, username := "alice" }))] none = none
    ∧ logout false [("sid1", SessionData.mk (some { id := 1, username := "alice" }))] none
        = ({ status := 400, message := "You are not logged in" },
           [("sid1", SessionData.mk (some { id := 1, username := "alice" }))])
    ∧ getSession [("sid1", SessionData.mk (some { id := 1, username := "alice" }))] (some "sid1")
        = some (SessionData.mk (some { id := 1, username := "alice" }))
    ∧ logout false [("sid1", SessionData.mk (some { id := 1, username := "alice" }))] (some "sid1")
        = ({ status := 200, message := "Logout successful" }, [])
    ∧ getSession (logout false [("sid1", SessionData.mk (some { id := 1, username := "alice" }))] (some "sid1")).2 (some "sid1") = none :=
  ⟨by decide,
   (logout_spec false [("sid1", SessionData.mk (some { id := 1, username := "alice" }))] none).1 (by decide),
   by decide,
   by decide,
   (((logout_spec false [("sid1", SessionData.mk (some { id := 1, username := "alice" }))] (some "sid1")).2
      "sid1" (SessionData.mk (some { id := 1, username := "alice" })) rfl (by decide)).2 rfl).2⟩

/-- C7: after a successful sign-in, the is-authenticated probe on the same
session answers 200; after a subsequent successful logout on that session,
the same probe answers 401. -/
theorem sign_in_probe_logout_roundtrip (hasher : Hasher) (us : UserStore)
    (ss : SessionStore) (sid : String) (username password : String) (user : UserRec)
    (hfind : findOne us username = some user)
    (hver : hasher.verify password user.password = true) :
    (signIn hasher us ss sid username password).1 =
      { status := 200, message := "Logged in successfully" }
    ∧ probe (signIn hasher us ss sid username password).2 (some sid) =
      { status := 200, message := "Authenticated" }
    ∧ (logout false (signIn hasher us ss sid username password).2 (some sid)).1 =
      { status := 200, message := "Logout successful" }
    ∧ probe (logout false (signIn hasher us ss sid username password).2 (some sid)).2 (some sid) =
      { status := 401, message := "You must be logged in to access this" } := by
  have hstate : (signIn hasher us ss sid username password).2 =
      setSession ss sid { user := some { id := user._id, username := user.username } } := by
    simp [signIn, hfind, hver]
  have hget : getSession (signIn hasher us ss sid username password).2 (some sid) =
      some { user := some { id := user._id, username := user.username } } := by
    rw [hstate]; exact getSession_setSession _ _ _
  refine ⟨by simp [signIn, hfind, hver], ?_, ?_, ?_⟩
  · simp [probe, hget, isAuthenticated]
  · simp [logout, hget]
  · simp [logout, hget, probe, getSession_destroySession, isAuthenticated]

theorem sign_in_probe_logout_roundtrip_witness :
    findOne [aliceRec] "alice" = some aliceRec
    ∧ modelHasher.verify "pw1" aliceRec.password = true
    ∧ (signIn modelHasher [aliceRec] [] "s1" "alice" "pw1").1 =
        { status := 200, message := "Logged in successfully" }
    ∧ probe (signIn modelHasher [aliceRec] [] "s1" "alice" "pw1").2 (some "s1") =
        { status := 200, message := "Authenticated" }
    ∧ probe (logout false (signIn modelHasher [aliceRec] [] "s1" "alice" "pw1").2 (some "s1")).2 (some "s1") =
        { status := 401, message := "You must be logged in to access this" } :=
  ⟨by decide, by decide,
   (sign_in_probe_logout_roundtrip modelHasher [aliceRec] [] "s1" "alice" "pw1"
      aliceRec (by decide) (by decide)).1,
   (sign_in_probe_logout_roundtrip modelHasher [aliceRec] [] "s1" "alice" "pw1"
      aliceRec (by decide) (by decide)).2.1,
   (sign_in_probe_logout_roundtrip modelHasher [aliceRec] [] "s1" "alice" "pw1"
      aliceRec (by decide) (by decide)).2.2.2⟩

/-- C5: with an actor resolved from the session who is absent from the
Credential Store or whose role is not "admin", delete answers
401 "Unauthorized" regardless of the target; with an admin actor and an
absent target it answers 404 "User not found"; with an admin actor and an
existing target it removes the target, answers
200 "User deleted successfully", and the target is no longer retrievable
by id. -/
theorem delete_user_spec (removeErr : Option String) (us : UserStore)
    (actorId targetId : Nat) :
    (findById us actorId = none →
      deleteUser removeErr us actorId targetId =
        ({ status := 401, message := "Unauthorized" }, us))
    ∧ (∀ a, findById us actorId = some a → a.role ≠ "admin" →
      deleteUser removeErr us actorId targetId =
        ({ status := 401, message := "Unauthorized" }, us))
    ∧ (∀ a, findById us actorId = some a → a.role = "admin" →
      findById us targetId = none →
      deleteUser removeErr us actorId targetId =
        ({ status := 404, message := "User not found" }, us))
    ∧ (∀ a t, findById us actorId = some a → a.role = "admin" →
      findById us targetId = some t → removeErr = none →
      deleteUser removeErr us actorId targetId =
        ({ status := 200, message := "User deleted successfully" },
         us.eraseP (fun r => r._id == targetId))
      ∧ ((us.map (fun r => r._id)).Nodup →
         findById (deleteUser removeErr us actorId targetId).2 targetId = none)) := by
  refine ⟨fun h => ?_, fun a ha hrole => ?_, fun a ha hrole ht => ?_,
    fun a t ha hrole ht herr => ?_⟩
  · simp [deleteUser, h]
  · simp [deleteUser, ha, hrole]
  · simp [deleteUser, ha, hrole, ht]
  · subst herr
    have hred : (deleteUser none us actorId targetId).2 =
        us.eraseP (fun r => r._id == targetId) := by
      simp [deleteUser, ha, hrole, ht]
    refine ⟨by simp [deleteUser, ha, hrole, ht], fun hn => ?_⟩
    rw [hred]
    exact findById_eraseP us targetId hn

theorem delete_user_spec_witness :
    deleteUser none [aliceRec, rootRec] 1 2 =
      ({ status := 401, message := "Unauthorized" }, [aliceRec, rootRec])
    ∧ deleteUser none [aliceRec, rootRec] 2 99 =
      ({ status := 404, message := "User not found" }, [aliceRec, rootRec])
    ∧ deleteUser none [aliceRec, rootRec] 2 1 =
      ({ status := 200, message := "User deleted successfully" },
       List.eraseP (fun r => r._id == 1) [aliceRec, rootRec])
    ∧ findById (deleteUser none [aliceRec, rootRec] 2 1).2 1 = none :=
  ⟨(delete_user_spec none [aliceRec, rootRec] 1 2).2.1 aliceRec (by decide) (by decide),
   (delete_user_spec none [aliceRec, rootRec] 2 99).2.2.1 rootRec (by decide) (by decide) (by decide),
   ((delete_user_spec none [aliceRec, rootRec] 2 1).2.2.2 rootRec aliceRec
      (by decide) (by decide) (by decide) rfl).1,
   ((delete_user_spec none [aliceRec, rootRec] 2 1).2.2.2 rootRec aliceRec
      (by decide) (by decide) (by decide) rfl).2 (by decide)⟩

/-- Case analysis of the delete handler: either it succeeds with status
200 and the store loses exactly the first record matching the target id,
or it leaves the store untouched. -/
theorem deleteUser_result_cases (removeErr : Option String) (us : UserStore)
    (actorId targetId : Nat) :
    ((deleteUser removeErr us actorId targetId).1.status = 200
      ∧ (deleteUser removeErr us actorId targetId).2 =
          us.eraseP (fun r => r._id == targetId)
      ∧ ∃ t, findById us targetId = some t)
    ∨ ((deleteUser removeErr us actorId targetId).1.status ≠ 200
      ∧ (deleteUser removeErr us actorId targetId).2 = us) := by
  rcases h1 : findById us actorId with _ | a
  · right; simp [deleteUser, h1]
  · by_cases hr : a.role = "admin"
    · rcases h2 : findById us targetId with _ | t
      · right; simp [deleteUser, h1, hr, h2]
      · rcases removeErr with _ | e
        · left
          refine ⟨?_, ?_, t, rfl⟩ <;> simp [deleteUser, h1, hr, h2]
        · right; simp [deleteUser, h1, hr, h2]
    · right; simp [deleteUser, h1, hr]

/-- C8: every delete call either removes exactly one user record — the
target — from the Credential Store (the 200 outcome) or removes none (the
401, 404 and 500 outcomes); in every outcome every record other than the
target is still in the store, and no record is added. -/
theorem delete_user_frame (removeErr : Option String) (us : UserStore)
    (actorId targetId : Nat) :
    ((deleteUser removeErr us actorId targetId).1.status = 200 →
      (deleteUser removeErr us actorId targetId).2 =
        us.eraseP (fun r => r._id == targetId)
      ∧ (deleteUser removeErr us actorId targetId).2.length + 1 = us.length
      ∧ ∃ t, findById us targetId = some t)
    ∧ ((deleteUser removeErr us actorId targetId).1.status ≠ 200 →
      (deleteUser removeErr us actorId targetId).2 = us)
    ∧ (∀ r, r ∈ us → (r._id == targetId) = false →
        r ∈ (deleteUser removeErr us actorId targetId).2)
    ∧ (∀ r, r ∈ (deleteUser removeErr us actorId targetId).2 → r ∈ us) := by
  rcases deleteUser_result_cases removeErr us actorId targetId with
    ⟨hs, hst, t, ht⟩ | ⟨hs, hst⟩
  · have ht' : us.find? (fun r => r._id == targetId) = some t := ht
    have htmem : t ∈ us := List.mem_of_find?_eq_some ht'
    have htp := List.find?_some ht'
    refine ⟨fun _ => ⟨hst, ?_, t, ht⟩, fun hne => absurd hs hne,
      fun r hr hrt => ?_, fun r hr => ?_⟩
    · rw [hst]
      exact List.length_eraseP_add_one htmem htp
    · rw [hst]
      exact (List.mem_eraseP_of_neg (by simp [hrt])).mpr hr
    · rw [hst] at hr
      exact List.mem_of_mem_eraseP hr
  · refine ⟨fun h200 => absurd h200 hs, fun _ => hst, fun r hr hrt => ?_,
      fun r hr => ?_⟩
    · rw [hst]; exact hr
    · rw [hst] at hr; exact hr

theorem delete_user_frame_witness :
    (deleteUser none [aliceRec, rootRec] 2 1).1.status = 200
    ∧ (deleteUser none [aliceRec, rootRec] 2 1).2 =
        List.eraseP (fun r => r._id == 1) [aliceRec, rootRec]
    ∧ (deleteUser (some "boom") [aliceRec, rootRec] 2 1).1.status ≠ 200
    ∧ (deleteUser (some "boom") [aliceRec, rootRec] 2 1).2 = [aliceRec, rootRec]
    ∧ rootRec ∈ (deleteUser none [aliceRec, rootRec] 2 1).2 :=
  ⟨by decide,
   ((delete_user_frame none [aliceRec, rootRec] 2 1).1 (by decide)).1,
   by decide,
   (delete_user_frame (some "boom") [aliceRec, rootRec] 2 1).2.1 (by decide),
   (delete_user_frame none [aliceRec, rootRec] 2 1).2.2.1 rootRec (by decide) (by decide)⟩

/-- C9: an admin actor may delete their own record — delete with the
target id equal to the actor's own id is not special-cased: it answers
200 "User deleted successfully" and removes the actor's record, which is
then no longer retrievable by id. -/
theorem delete_user_self (us : UserStore) (a : UserRec)
    (hfind : findById us a._id = some a)
    (hrole : a.role = "admin")
    (hn : (us.map (fun r => r._id)).Nodup) :
    deleteUser none us a._id a._id =
      ({ status := 200, message := "User deleted successfully" },
       us.eraseP (fun r => r._id == a._id))
    ∧ findById (us.eraseP (fun r => r._id == a._id)) a._id = none :=
  ⟨by simp [deleteUser, hfind, hrole], findById_eraseP us a._id hn⟩

theorem delete_user_self_witness :
    findById [aliceRec, rootRec] rootRec._id = some rootRec
    ∧ deleteUser none [aliceRec, rootRec] rootRec._id rootRec._id =
        ({ status := 200, message := "User deleted successfully" },
         List.eraseP (fun r => r._id == rootRec._id) [aliceRec, rootRec])
    ∧ findById (List.eraseP (fun r => r._id == rootRec._id) [aliceRec, rootRec])
        rootRec._id = none :=
  ⟨by decide,
   (delete_user_self [aliceRec, rootRec] rootRec (by decide) (by decide) (by decide)).1,
   (delete_user_self [aliceRec, rootRec] rootRec (by decide) (by decide) (by decide)).2⟩

/-- C6 is refuted at this input: the user store is empty (the referenced
user with id 1 is deleted) while the session store still holds a valid
session whose payload references that user, and the is-authenticated
probe answers 200 "Authenticated", not 401. -/
theorem stale_session_probe_counterexample :
    findById ([] : UserStore) 1 = none
    ∧ getSession [("sid1", SessionData.mk (some { id := 1, username := "ghost" }))]
        (some "sid1") = some (SessionData.mk (some { id := 1, username := "ghost" }))
    ∧ probe [("sid1", SessionData.mk (some { id := 1, username := "ghost" }))]
        (some "sid1") = { status := 200, message := "Authenticated" }
    ∧ (probe [("sid1", SessionData.mk (some { id := 1, username := "ghost" }))]
        (some "sid1")).status ≠ 401 :=
  ⟨rfl, by decide, by decide, by decide⟩

/-- C6 (amended): a valid session whose referenced user has been deleted
from the Credential Store is still allowed through the Auth Guard — the
guard never consults the store, so the is-authenticated probe answers 200
(no crash); only the role-gated delete route, which does dereference the
user, rejects such a request with 401 "Unauthorized". -/
theorem stale_session_behavior (us : UserStore) (ss : SessionStore)
    (sid : Option String) (su : SessionUser)
    (hsess : userRef (getSession ss sid) = some su)
    (hdel : findById us su.id = none) :
    probe ss sid = { status := 200, message := "Authenticated" }
    ∧ ∀ removeErr targetId,
        deleteUserRoute removeErr us ss sid targetId =
          ({ status := 401, message := "Unauthorized" }, us) := by
  rcases hget : getSession ss sid with _ | d
  · rw [hget] at hsess
    simp [userRef] at hsess
  · rw [hget] at hsess
    simp only [userRef, Option.bind] at hsess
    constructor
    · simp [probe, hget, isAuthenticated, hsess]
    · intro removeErr targetId
      simp [deleteUserRoute, hget, isAuthenticated, hsess, deleteUser, hdel]

theorem stale_session_behavior_witness :
    userRef (getSession
        [("sid1", SessionData.mk (some { id := 1, username := "ghost" }))] (some "sid1"))
      = some { id := 1, username := "ghost" }
    ∧ findById ([] : UserStore) 1 = none
    ∧ probe [("sid1", SessionData.mk (some { id := 1, username := "ghost" }))]
        (some "sid1") = { status := 200, message := "Authenticated" }
    ∧ deleteUserRoute none []
        [("sid1", SessionData.mk (some { id := 1, username := "ghost" }))]
        (some "sid1") 5 = ({ status := 401, message := "Unauthorized" }, []) :=
  ⟨by decide, rfl,
   (stale_session_behavior []
      [("sid1", SessionData.mk (some { id := 1, username := "ghost" }))]
      (some "sid1") { id := 1, username := "ghost" } (by decide) rfl).1,
   (stale_session_behavior []
      [("sid1", SessionData.mk (some { id := 1, username := "ghost" }))]
      (some "sid1") { id := 1, username := "ghost" } (by decide) rfl).2 none 5⟩

end CookieServer
